import Mathlib

/-!
Verification of the CCheckpoints checkpoint store
(`src/core/checkpoint-manager-sqlite.ts`) against its natural-language
specification.

The development shallowly embeds the store: the SQLite database becomes a
record of row lists, the manager's in-memory state becomes an explicit
record, JavaScript strings are Lean `String`s manipulated through
structural helpers over `List Char` (so every definition evaluates in the
kernel), and fallible SQLite statement executions are modelled by an
explicit failure oracle (each successful `run()` of a prepared statement
autocommits; a failing one throws).  Timestamps (ISO-8601 strings in the
source, compared only for ordering) are modelled as naturals, as are the
generated `Date.now()`-plus-random identifiers, which are assumed fresh.
-/

/-! ## String helpers

The TypeScript source uses JavaScript's `String.prototype` operations
(`split('\n')`, `trim()`, `substring(0, n)`) and Node's `path.basename` /
`path.dirname`.  They are embedded structurally over `List Char` so that
they compute by kernel reduction. -/

/-- Splitting a character list at every occurrence of the separator
character; models JavaScript `String.prototype.split` with a one-character
separator (`"".split(c)` is `[""]`, a trailing separator yields a trailing
empty piece). -/
def splitOnCharList (c : Char) : List Char → List (List Char)
  | [] => [[]]
  | x :: xs =>
    let r := splitOnCharList c xs
    if x = c then [] :: r
    else
      match r with
      | [] => [[x]]
      | g :: gs => (x :: g) :: gs

/-- Models `content.split('\n')` from `generateSimpleDiff`. -/
def strSplitLines (s : String) : List String :=
  (splitOnCharList '\n' s.toList).map (fun cs => String.mk cs)

/-- Character-list version of JavaScript `String.prototype.trim`:
whitespace is removed from both ends. -/
def trimCharList (l : List Char) : List Char :=
  ((l.dropWhile Char.isWhitespace).reverse.dropWhile Char.isWhitespace).reverse

/-- Models `result.trim()` from `generateSimpleDiff`. -/
def strTrim (s : String) : String :=
  String.mk (trimCharList s.toList)

/-- Models `text.substring(0, n)` used when capturing prompt text. -/
def strTake (s : String) (n : Nat) : String :=
  String.mk (s.toList.take n)

/-- Models Node `path.basename` for the `/`-separated paths the store
works with. -/
def basenameOf (p : String) : String :=
  match (splitOnCharList '/' p.toList).getLast? with
  | some cs => String.mk cs
  | none => p

/-- Models Node `path.dirname` for `/`-separated paths (used by the
restore loop's `dirname(file.filePath)`). -/
def dirnameOf (p : String) : String :=
  let parts := splitOnCharList '/' p.toList
  if parts.length ≤ 1 then "."
  else if parts.dropLast = [[]] then "/"
  else String.mk (List.intercalate ['/'] parts.dropLast)

/-- Directories guaranteed to exist after `mkdir(d, { recursive: true })`:
the directory itself together with every `/`-joined ancestor built from
its components. -/
def ancestorDirs (d : String) : List String :=
  d :: (List.range (splitOnCharList '/' d.toList).length).map
    (fun i => String.mk (List.intercalate ['/'] ((splitOnCharList '/' d.toList).take (i + 1))))

/-! ## Data model

Row shapes follow the three `CREATE TABLE` statements of
`initializeDatabase` (columns unused by any operation under study, such as
the snapshot autoincrement id, are not carried). -/

/-- A row of the `sessions` table. -/
structure Session where
  id : Nat
  projectPath : String
  projectName : String
  totalFileChanges : Nat
  sessionStartTime : Nat
  sessionEndTime : Option Nat
  lastPrompt : Option String
  lastPromptTime : Option Nat
  createdAt : Nat
  updatedAt : Nat
deriving DecidableEq

/-- A row of the `checkpoints` table. -/
structure Checkpoint where
  id : Nat
  sessionId : Nat
  projectPath : String
  projectName : String
  prompt : String
  message : String
  fileCount : Nat
  totalSize : Nat
  userPrompt : Option String
  timestamp : Nat
  metadata : String
  createdAt : Nat
deriving DecidableEq

/-- A row of the `file_snapshots` table. -/
structure FileSnapshot where
  checkpointId : Nat
  filePath : String
  relativePath : String
  content : Option String
  size : Nat
  modifiedTime : Nat
  extension : String
  isDirectory : Bool
deriving DecidableEq

/-- The SQLite database owned by the manager. -/
structure DB where
  sessions : List Session
  checkpoints : List Checkpoint
  file_snapshots : List FileSnapshot
deriving DecidableEq

/-- One record produced by the Content Scanner
(`FileUtils.getProjectFiles`); field names follow the `FileInfo` interface
of the scanning utility as used by `createCheckpoint`. -/
structure FileInfo where
  absolutePath : String
  relativePath : String
  content : String
  size : Nat
  lastModified : Nat
  extension : String
deriving DecidableEq

/-- The object `createCheckpoint` returns on success. -/
structure CheckpointResult where
  id : Nat
  sessionId : Nat
  projectPath : String
  projectName : String
  message : String
  fileCount : Nat
  totalSize : Nat
  userPrompt : Option String
  timestamp : Nat
deriving DecidableEq

/-- In-memory manager state: the database plus the `currentSession` cache
field of the `CheckpointManager` class, plus a counter supplying the fresh
`Date.now()`-plus-random identifiers. -/
structure ManagerState where
  db : DB
  currentSession : Option Session
  nextId : Nat
deriving DecidableEq

/-! ## Prompt extraction and checkpoint message -/

/-- The relevant parts of the event payload (`data`) received by the
lifecycle handlers: the prompt sources inspected by
`handleUserPromptSubmit` and the working directory `data.cwd`. -/
structure PromptData where
  actual_prompt : Option String
  possiblePrompt : Option String
  env_claude_prompt : Option String
  env_user_input : Option String
  cwd : Option String
deriving DecidableEq

/-- Truthiness-plus-length test `x && x.length > 0` on an optional string. -/
def optNonEmpty : Option String → Bool
  | some s => s.length > 0
  | none => false

/-- Truthiness-plus-length test `x && x.length > 10` on an optional string. -/
def optLongerThan10 : Option String → Bool
  | some s => s.length > 10
  | none => false

/-- The prompt-text priority chain of `handleUserPromptSubmit`
(lines 180-204): actual prompt from stdin JSON, then `possiblePrompt`,
then the two environment-variable sources (each truncated to 300
characters), finally the generic placeholder. -/
def extractPromptText (d : PromptData) : String :=
  if optNonEmpty d.actual_prompt then d.actual_prompt.getD ""
  else if optLongerThan10 d.possiblePrompt
      && !(d.possiblePrompt == some "User prompt submitted")
      && !(d.possiblePrompt == some "UserPromptSubmit") then
    strTake (d.possiblePrompt.getD "") 300
  else if optLongerThan10 d.env_claude_prompt then
    strTake (d.env_claude_prompt.getD "") 300
  else if optLongerThan10 d.env_user_input then
    strTake (d.env_user_input.getD "") 300
  else "User prompt submitted"

/-- One decimal place of a value scaled by ten, as produced by
`(bytes / 1024).toFixed(1)`-style formatting. -/
def oneDecimal (tenths : Nat) : String :=
  toString (tenths / 10) ++ "." ++ toString (tenths % 10)

/-- Modelled from the spec: `FileUtils.formatFileSize` lives in
`src/utils/file-utils.ts`, which is not part of the provided sources; per
spec section 4.3 the human-readable size uses binary units B/KB/MB/GB with
a 1024 divisor and one decimal place. -/
def formatFileSize (bytes : Nat) : String :=
  if bytes < 1024 then toString bytes ++ " B"
  else if bytes < 1024 * 1024 then oneDecimal (bytes * 10 / 1024) ++ " KB"
  else if bytes < 1024 * 1024 * 1024 then oneDecimal (bytes * 10 / (1024 * 1024)) ++ " MB"
  else oneDecimal (bytes * 10 / (1024 * 1024 * 1024)) ++ " GB"

/-- `generateCheckpointMessage` (lines 377-390): the session's prompt (or
the generic placeholder) followed by the file count and human size. -/
def generateCheckpointMessage (session : Session) (fileCount : Nat) (totalSize : Nat) : String :=
  let size := formatFileSize totalSize
  if optNonEmpty session.lastPrompt
      && !(session.lastPrompt == some "User prompt submitted") then
    session.lastPrompt.getD "" ++ " (" ++ toString fileCount ++ " files, " ++ size ++ ")"
  else
    "User prompt submitted (" ++ toString fileCount ++ " files, " ++ size ++ ")"

/-! ## Session lookup and the lifecycle handlers -/

/-- The latest-started session of a list, modelling
`ORDER BY sessionStartTime DESC LIMIT 1` (ties resolved to the earlier
row, the engine's order among equal keys being unspecified). -/
def pickLatestStart : List Session → Option Session
  | [] => none
  | s :: rest =>
    match pickLatestStart rest with
    | none => some s
    | some a => if s.sessionStartTime < a.sessionStartTime then some a else some s

/-- Row predicate of `getActiveSession`'s query:
`projectPath = ? AND sessionEndTime IS NULL`. -/
def isActiveFor (projectPath : String) (s : Session) : Bool :=
  s.projectPath == projectPath && s.sessionEndTime == none

/-- `getActiveSession` (lines 392-407) as a pure query. The source method
also stores a found session into the `currentSession` cache; that side
effect is inlined at each call site below, where the cache is written
anyway. -/
def getActiveSession (db : DB) (projectPath : String) : Option Session :=
  pickLatestStart (db.sessions.filter (isActiveFor projectPath))

/-- `handleUserPromptSubmit` (lines 172-250): find or create the active
session for `data.cwd || process.cwd()`; on creation insert a fresh row
with no end time, otherwise refresh `lastPrompt`/`lastPromptTime` in
place.  Returns the session handed back to the caller together with the
new manager state. -/
def handleUserPromptSubmit (st : ManagerState) (d : PromptData) (defaultCwd : String)
    (now : Nat) : Session × ManagerState :=
  let projectPath := d.cwd.getD defaultCwd
  let projectName := basenameOf projectPath
  let promptText := extractPromptText d
  match getActiveSession st.db projectPath with
  | none =>
    let s : Session :=
      { id := st.nextId, projectPath := projectPath, projectName := projectName
        totalFileChanges := 0, sessionStartTime := now, sessionEndTime := none
        lastPrompt := some promptText, lastPromptTime := some now
        createdAt := now, updatedAt := now }
    (s, { st with
            db := { st.db with sessions := st.db.sessions ++ [s] }
            currentSession := some s
            nextId := st.nextId + 1 })
  | some session =>
    -- UPDATE sessions SET lastPrompt = ?, lastPromptTime = ?, updatedAt = ? WHERE id = ?
    let sessions' := st.db.sessions.map (fun srow =>
      if srow.id == session.id then
        { srow with lastPrompt := some promptText, lastPromptTime := some now, updatedAt := now }
      else srow)
    -- the in-memory object handed back only has lastPrompt/lastPromptTime refreshed
    let session' := { session with lastPrompt := some promptText, lastPromptTime := some now }
    (session', { st with
                   db := { st.db with sessions := sessions' }
                   currentSession := some session' })

/-! ## Checkpoint creation

`createCheckpoint` (lines 290-375) runs each prepared statement
separately; better-sqlite3 autocommits every successful `run()` and the
surrounding `try`/`catch` only logs a failure and returns `null`.  No
transaction wraps the inserts.  Whether the i-th `file_snapshots` insert
throws is supplied by a failure oracle `failsAt`. -/

/-- The `file_snapshots` row inserted for one scanned file. -/
def mkSnapshotRow (cpId : Nat) (f : FileInfo) : FileSnapshot :=
  { checkpointId := cpId, filePath := f.absolutePath, relativePath := f.relativePath
    content := some f.content, size := f.size, modifiedTime := f.lastModified
    extension := f.extension, isDirectory := false }

/-- The snapshot-insert loop of `createCheckpoint`.  Each successful
insert is committed immediately; a failing one throws, leaving the rows
committed so far in place.  Returns whether the whole loop succeeded,
together with the database. -/
def insertSnapshots (cpId : Nat) (failsAt : Nat → Bool) :
    DB → List FileInfo → Nat → Bool × DB
  | db, [], _ => (true, db)
  | db, f :: rest, i =>
    if failsAt i then (false, db)
    else insertSnapshots cpId failsAt
      { db with file_snapshots := db.file_snapshots ++ [mkSnapshotRow cpId f] }
      rest (i + 1)

/-- `createCheckpoint` (lines 290-375).  `files` is the Content Scanner's
output for `session.projectPath` (the scanner itself lives in the absent
`file-utils.ts`); `freshId` the generated checkpoint id; `failsAt` the
failure oracle for the snapshot inserts.  Returns the value handed to the
caller (`null` on empty scan or on a caught insert failure) and the
database as left behind. -/
def createCheckpoint (db : DB) (session : Session) (files : List FileInfo)
    (failsAt : Nat → Bool) (now : Nat) (freshId : Nat) :
    Option CheckpointResult × DB :=
  if files.length == 0 then (none, db)
  else
    let totalSize := files.foldl (fun sum f => sum + f.size) 0
    let message := generateCheckpointMessage session files.length totalSize
    let cp : Checkpoint :=
      { id := freshId, sessionId := session.id
        projectPath := session.projectPath, projectName := session.projectName
        prompt := session.lastPrompt.getD "User prompt submitted"
        message := message, fileCount := files.length, totalSize := totalSize
        userPrompt := some (session.lastPrompt.getD "User prompt submitted")
        timestamp := now, metadata := "{}", createdAt := now }
    let db1 := { db with checkpoints := db.checkpoints ++ [cp] }
    let out := insertSnapshots freshId failsAt db1 files 0
    if out.1 then
      -- UPDATE sessions SET totalFileChanges = totalFileChanges + ?, updatedAt = ? WHERE id = ?
      let db3 := { out.2 with sessions := out.2.sessions.map (fun s =>
        if s.id == session.id then
          { s with totalFileChanges := s.totalFileChanges + files.length, updatedAt := now }
        else s) }
      (some { id := freshId, sessionId := session.id
              projectPath := session.projectPath, projectName := session.projectName
              message := message, fileCount := files.length, totalSize := totalSize
              userPrompt := session.lastPrompt, timestamp := now }, db3)
    else
      -- the thrown insert error is caught, logged, and `null` returned;
      -- rows already committed stay visible
      (none, out.2)

/-- `handleStop` (lines 252-283): resolve the session to close — the
`currentSession` cache first, else the active session for
`data.cwd || process.cwd()` — and, when one exists, create a checkpoint
and mark the session ended. -/
def handleStop (st : ManagerState) (d : PromptData) (defaultCwd : String)
    (files : List FileInfo) (failsAt : Nat → Bool) (now : Nat) :
    Option CheckpointResult × ManagerState :=
  let st1 :=
    match st.currentSession with
    | some _ => st
    | none =>
      match getActiveSession st.db (d.cwd.getD defaultCwd) with
      | some s => { st with currentSession := some s }
      | none => st
  match st1.currentSession with
  | none => (none, st1)
  | some cur =>
    let out := createCheckpoint st1.db cur files failsAt now st1.nextId
    -- UPDATE sessions SET sessionEndTime = ?, updatedAt = ? WHERE id = ?
    let db2 := { out.2 with sessions := out.2.sessions.map (fun s =>
      if s.id == cur.id then { s with sessionEndTime := some now, updatedAt := now } else s) }
    (out.1, { st1 with db := db2, currentSession := none, nextId := st1.nextId + 1 })

/-! ## Event sequences -/

/-- One external lifecycle event, carrying its payload and the environment
it is processed in: the process working directory, the Content Scanner's
result and the insert-failure oracle for a `Stop`, and the wall-clock
instant. -/
inductive Event where
  | userPromptSubmit (d : PromptData) (defaultCwd : String) (now : Nat)
  | stop (d : PromptData) (defaultCwd : String) (files : List FileInfo)
      (failsAt : Nat → Bool) (now : Nat)

/-- `handleClaudeEvent` restricted to the two state-changing events,
keeping only the state. -/
def step (st : ManagerState) (e : Event) : ManagerState :=
  match e with
  | .userPromptSubmit d c now => (handleUserPromptSubmit st d c now).2
  | .stop d c files failsAt now => (handleStop st d c files failsAt now).2

/-- The manager's state at start-up: empty tables, no cached session. -/
def initState : ManagerState :=
  { db := { sessions := [], checkpoints := [], file_snapshots := [] }
    currentSession := none, nextId := 0 }

/-- The state after a sequence of lifecycle events hits a fresh manager. -/
def run (es : List Event) : ManagerState :=
  es.foldl step initState

/-- Number of active (`sessionEndTime IS NULL`) session rows for one
project path. -/
def countActive (db : DB) (projectPath : String) : Nat :=
  (db.sessions.filter (isActiveFor projectPath)).length

/-! ## Deletion -/

/-- `deleteCheckpoint` (lines 760-763): `DELETE FROM checkpoints WHERE id
= ?`.  The `file_snapshots` schema declares `FOREIGN KEY (checkpointId)
REFERENCES checkpoints(id) ON DELETE CASCADE` (line 142), so the delete
cascades to the checkpoint's snapshot rows. -/
def deleteCheckpoint (db : DB) (checkpointId : Nat) : DB :=
  { db with
      checkpoints := db.checkpoints.filter (fun c => !(c.id == checkpointId))
      file_snapshots := db.file_snapshots.filter (fun r => !(r.checkpointId == checkpointId)) }

/-! ## Diff engine -/

/-- One line of `generateSimpleDiff`'s position-by-position loop body
(lines 736-754), at index `i` of the two line sequences. -/
def diffLineAt (oldLines newLines : List String) (i : Nat) : String :=
  match oldLines[i]?, newLines[i]? with
  | none, some newLine => "+" ++ newLine ++ "\n"
  | some oldLine, none => "-" ++ oldLine ++ "\n"
  | some oldLine, some newLine =>
    if oldLine ≠ newLine then "-" ++ oldLine ++ "\n" ++ "+" ++ newLine ++ "\n"
    else " " ++ oldLine ++ "\n"
  | none, none => ""

/-- The synthetic hunk header emitted by `generateSimpleDiff`. -/
def hunkHeader (oldLen newLen : Nat) : String :=
  "@@ -1," ++ toString oldLen ++ " +1," ++ toString newLen ++ " @@\n"

/-- Concatenation of the pieces successively appended to `result` by the
diff loop. -/
def strConcat : List String → String
  | [] => ""
  | s :: rest => s ++ strConcat rest

/-- `generateSimpleDiff` (lines 724-757): split both contents into lines,
emit the synthetic hunk header, walk both sequences by index up to the
longer length, then trim the result (with a fallback string should the
trimmed result be empty). -/
def generateSimpleDiff (oldContent newContent : String) : String :=
  let oldLines := strSplitLines oldContent
  let newLines := strSplitLines newContent
  let maxLength := max oldLines.length newLines.length
  let body := strConcat ((List.range maxLength).map (diffLineAt oldLines newLines))
  let t := strTrim (hunkHeader oldLines.length newLines.length ++ body)
  if t == "" then "No content changes detected" else t

/-- A member of the `changes` array built by `diffCheckpoints`. -/
inductive ChangeType where
  | added
  | modified
  | deleted
deriving DecidableEq

/-- One change record emitted by `diffCheckpoints`; optional fields are
present exactly when the source object literal carries them. -/
structure Change where
  type : ChangeType
  file : String
  diff : Option String
  sizeBefore : Option Nat
  sizeAfter : Option Nat
deriving DecidableEq

/-- Helper for `dedupFirst`: drops elements already seen. -/
def dedupFirstAux (seen : List String) : List String → List String
  | [] => []
  | a :: rest =>
    if seen.contains a then dedupFirstAux seen rest
    else a :: dedupFirstAux (a :: seen) rest

/-- First-occurrence deduplication, the iteration order of a JavaScript
`Set`/`Map` built by successive insertion. -/
def dedupFirst (l : List String) : List String :=
  dedupFirstAux [] l

/-- The snapshot rows `diffCheckpoints` and `restoreCheckpoint` load for a
checkpoint: `WHERE checkpointId = ? AND isDirectory = 0`. -/
def snapshotRowsOf (db : DB) (checkpointId : Nat) : List FileSnapshot :=
  db.file_snapshots.filter (fun r => r.checkpointId == checkpointId && r.isDirectory == false)

/-- Lookup in the JavaScript `Map` built from a snapshot-row list keyed by
`filePath`: repeated `set` calls make the last row with a given key win. -/
def mapGet (files : List FileSnapshot) (p : String) : Option FileSnapshot :=
  files.reverse.find? (fun f => f.filePath == p)

/-- The key list of that `Map`, in first-insertion order. -/
def mapKeys (files : List FileSnapshot) : List String :=
  dedupFirst (files.map (fun f => f.filePath))

/-- `new Set([...currentFileMap.keys(), ...previousFileMap.keys()])`:
every path present in either checkpoint, in first-occurrence order. -/
def allPaths (currentFiles previousFiles : List FileSnapshot) : List String :=
  dedupFirst (mapKeys currentFiles ++ mapKeys previousFiles)

/-- The loop body of `diffCheckpoints` (lines 670-702) for one path:
the change record pushed for it, if any. -/
def classifyPath (currentFiles previousFiles : List FileSnapshot) (p : String) :
    Option Change :=
  match mapGet currentFiles p, mapGet previousFiles p with
  | some currentFile, none =>
    some { type := .added
           file := if currentFile.relativePath == "" then p else currentFile.relativePath
           diff := none, sizeBefore := none, sizeAfter := some currentFile.size }
  | none, some previousFile =>
    some { type := .deleted
           file := if previousFile.relativePath == "" then p else previousFile.relativePath
           diff := none, sizeBefore := some previousFile.size, sizeAfter := none }
  | some currentFile, some previousFile =>
    if currentFile.content ≠ previousFile.content then
      some { type := .modified
             file := if currentFile.relativePath == "" then p else currentFile.relativePath
             diff := some (generateSimpleDiff (previousFile.content.getD "")
               (currentFile.content.getD ""))
             sizeBefore := some previousFile.size, sizeAfter := some currentFile.size }
    else none
  | none, none => none

/-- The `changes` array of `diffCheckpoints`. -/
def diffChanges (currentFiles previousFiles : List FileSnapshot) : List Change :=
  (allPaths currentFiles previousFiles).filterMap (classifyPath currentFiles previousFiles)

/-- The `summary` object of `diffCheckpoints`. -/
structure DiffSummary where
  added : Nat
  modified : Nat
  deleted : Nat
deriving DecidableEq

/-- `summary`: counts of each change type among the emitted changes. -/
def diffSummary (changes : List Change) : DiffSummary :=
  { added := (changes.filter (fun c => c.type == ChangeType.added)).length
    modified := (changes.filter (fun c => c.type == ChangeType.modified)).length
    deleted := (changes.filter (fun c => c.type == ChangeType.deleted)).length }

/-- The `current`/`previous` header of a diff result; `message || prompt`
falls back to the prompt when the message is empty (falsy). -/
structure DiffMeta where
  id : Nat
  message : String
  timestamp : Nat
deriving DecidableEq

/-- Builds one `DiffMeta` from a checkpoint row. -/
def metaOf (c : Checkpoint) : DiffMeta :=
  { id := c.id, message := if c.message == "" then c.prompt else c.message
    timestamp := c.timestamp }

/-- The value `diffCheckpoints` resolves with. -/
structure DiffResult where
  current : DiffMeta
  previous : DiffMeta
  changes : List Change
  summary : DiffSummary
deriving DecidableEq

/-- `diffCheckpoints` (lines 626-722).  `none` models the thrown
`Error('One or both checkpoints not found')`. -/
def diffCheckpoints (db : DB) (currentId previousId : Nat) : Option DiffResult :=
  match db.checkpoints.find? (fun c => c.id == currentId),
        db.checkpoints.find? (fun c => c.id == previousId) with
  | some current, some previous =>
    let currentFiles := snapshotRowsOf db currentId
    let previousFiles := snapshotRowsOf db previousId
    let changes := diffChanges currentFiles previousFiles
    some { current := metaOf current, previous := metaOf previous
           changes := changes, summary := diffSummary changes }
  | _, _ => none

/-! ## Restore engine

The filesystem is a map from absolute path to text content together with
the set of existing directories, both as functions so that restore's
overwrite semantics stay extensional. -/

/-- The filesystem state acted on by `restoreCheckpoint`. -/
structure FS where
  files : String → Option String
  dirs : String → Bool

/-- `mkdir(dirname(file.filePath), { recursive: true })`. -/
def FS.mkdirp (fs : FS) (d : String) : FS :=
  { fs with dirs := fun q => fs.dirs q || (ancestorDirs d).contains q }

/-- `writeFile(file.filePath, file.content, 'utf-8')`. -/
def FS.writeFile (fs : FS) (p : String) (c : String) : FS :=
  { fs with files := fun q => if q == p then some c else fs.files q }

/-- One iteration of the restore loop (lines 589-608): always create the
parent directory, then write the content and count the file as restored —
unless the stored content is `null`, in which case nothing further
happens for this row. -/
def restoreStep (acc : FS × Nat) (row : FileSnapshot) : FS × Nat :=
  let fs1 := acc.1.mkdirp (dirnameOf row.filePath)
  match row.content with
  | some c => (fs1.writeFile row.filePath c, acc.2 + 1)
  | none => (fs1, acc.2)

/-- The value `restoreCheckpoint` resolves with; in this pure model no
write fails, so `errors` is always empty. -/
structure RestoreResult where
  filesRestored : Nat
  totalFiles : Nat
  errors : List String
deriving DecidableEq

/-- `restoreCheckpoint` (lines 568-623).  `none` models the thrown
`Error('Checkpoint not found')`; otherwise every non-directory snapshot
row is replayed onto the filesystem in order. -/
def restoreCheckpoint (db : DB) (checkpointId : Nat) (fs : FS) :
    Option (RestoreResult × FS) :=
  match db.checkpoints.find? (fun c => c.id == checkpointId) with
  | none => none
  | some _ =>
    let rows := snapshotRowsOf db checkpointId
    let out := rows.foldl restoreStep (fs, 0)
    some ({ filesRestored := out.2, totalFiles := rows.length, errors := [] }, out.1)

/-! ## Claim C2: deleting a checkpoint cascades to its snapshots -/

/-- Deleting one checkpoint removes every `file_snapshots` row owned by it
(via the schema's `ON DELETE CASCADE`) along with the checkpoint row
itself: no row keyed by the deleted id remains. -/
theorem deleteCheckpoint_cascades (db : DB) (checkpointId : Nat) :
    (deleteCheckpoint db checkpointId).file_snapshots.filter
        (fun r => r.checkpointId == checkpointId) = []
    ∧ (deleteCheckpoint db checkpointId).checkpoints.filter
        (fun c => c.id == checkpointId) = [] := by
  refine ⟨?_, ?_⟩ <;>
  · rw [List.filter_eq_nil_iff]
    intro a ha
    simp only [deleteCheckpoint, List.mem_filter] at ha
    simpa using ha.2

/-! ## Claim C6: an empty scan creates nothing and returns null -/

/-- When the Content Scanner produces zero files, `createCheckpoint`
returns `null` and leaves the database untouched, and the closing path of
`handleStop` hands that `null` to the caller with no checkpoint or
snapshot row created. -/
theorem createCheckpoint_empty_scan (db : DB) (session : Session) (failsAt : Nat → Bool)
    (now freshId : Nat) (st : ManagerState) (d : PromptData) (defaultCwd : String) :
    createCheckpoint db session [] failsAt now freshId = (none, db)
    ∧ (handleStop st d defaultCwd [] failsAt now).1 = none
    ∧ (handleStop st d defaultCwd [] failsAt now).2.db.checkpoints = st.db.checkpoints
    ∧ (handleStop st d defaultCwd [] failsAt now).2.db.file_snapshots = st.db.file_snapshots := by
  refine ⟨rfl, ?_⟩
  cases hc : st.currentSession with
  | some cur => simp [handleStop, hc, createCheckpoint]
  | none =>
    cases hg : getActiveSession st.db (d.cwd.getD defaultCwd) with
    | some s => simp [handleStop, hc, hg, createCheckpoint]
    | none => simp [handleStop, hc, hg]

/-! ## Claim C1: no transaction around checkpoint creation -/

/-- A session whose project scan yields two files. -/
def cpDemoSession : Session :=
  { id := 0, projectPath := "/p", projectName := "p", totalFileChanges := 0
    sessionStartTime := 1, sessionEndTime := none, lastPrompt := some "fix the bug"
    lastPromptTime := some 1, createdAt := 1, updatedAt := 1 }

/-- First scanned file. -/
def cpDemoFileA : FileInfo :=
  { absolutePath := "/p/a.txt", relativePath := "a.txt", content := "aaa"
    size := 3, lastModified := 0, extension := ".txt" }

/-- Second scanned file. -/
def cpDemoFileB : FileInfo :=
  { absolutePath := "/p/b.txt", relativePath := "b.txt", content := "bbb"
    size := 3, lastModified := 0, extension := ".txt" }

/-- Database holding only the session row being closed. -/
def cpDemoDB : DB := { sessions := [cpDemoSession], checkpoints := [], file_snapshots := [] }

/-- Checkpoint creation is not all-or-nothing: when the second of the two
snapshot inserts fails, `createCheckpoint` reports failure (`null`), yet
the database keeps the already-committed checkpoint row — which claims
two files — next to a single snapshot row.  The inserts run outside any
transaction and the `catch` block performs no rollback, so a checkpoint
row stays visible with a partial snapshot set. -/
theorem createCheckpoint_partial_visible :
    (createCheckpoint cpDemoDB cpDemoSession [cpDemoFileA, cpDemoFileB]
      (fun i => i == 1) 5 100).1 = none
    ∧ (createCheckpoint cpDemoDB cpDemoSession [cpDemoFileA, cpDemoFileB]
        (fun i => i == 1) 5 100).2.checkpoints.map (fun c => (c.id, c.fileCount)) = [(100, 2)]
    ∧ (createCheckpoint cpDemoDB cpDemoSession [cpDemoFileA, cpDemoFileB]
        (fun i => i == 1) 5 100).2.file_snapshots.map
          (fun r => (r.checkpointId, r.relativePath)) = [(100, "a.txt")] := by
  decide

/-! ## Claim C3: a stop event for a path with no active session -/

/-- An active session for project `/a`, cached in the manager. -/
def c3Session : Session :=
  { id := 7, projectPath := "/a", projectName := "a", totalFileChanges := 0
    sessionStartTime := 1, sessionEndTime := none, lastPrompt := some "work on a"
    lastPromptTime := some 1, createdAt := 1, updatedAt := 1 }

/-- Manager state whose `currentSession` cache holds project `/a`'s
session. -/
def c3State : ManagerState :=
  { db := { sessions := [c3Session], checkpoints := [], file_snapshots := [] }
    currentSession := some c3Session, nextId := 100 }

/-- A stop-event payload whose working directory is project `/b`. -/
def c3Data : PromptData :=
  { actual_prompt := none, possiblePrompt := none, env_claude_prompt := none
    env_user_input := none, cwd := some "/b" }

/-- A file scanned for the checkpoint taken during the stop event. -/
def c3File : FileInfo :=
  { absolutePath := "/a/f.txt", relativePath := "f.txt", content := "x"
    size := 1, lastModified := 0, extension := ".txt" }

/-- The claim fails on the code: project `/b` has no active session, yet
the stop event is not a no-op — because the `currentSession` cache is
consulted before the event's project path, `handleStop` returns a
checkpoint (for `/a`) and closes `/a`'s session row. -/
theorem handleStop_cached_session_not_noop :
    getActiveSession c3State.db "/b" = none
    ∧ c3Data.cwd = some "/b"
    ∧ (handleStop c3State c3Data "/b" [c3File] (fun _ => false) 9).1 ≠ none
    ∧ (handleStop c3State c3Data "/b" [c3File] (fun _ => false) 9).2.db.sessions.map
        (fun s => (s.projectPath, s.sessionEndTime)) = [("/a", some 9)] := by
  decide

/-- Amended claim: when the in-memory `currentSession` cache is empty and
the event's project path has no active session, `handleStop` returns
`null` and leaves the manager state — every session row included —
exactly as it was. -/
theorem handleStop_noop_when_no_session (st : ManagerState) (d : PromptData)
    (defaultCwd : String) (files : List FileInfo) (failsAt : Nat → Bool) (now : Nat)
    (hcache : st.currentSession = none)
    (hactive : getActiveSession st.db (d.cwd.getD defaultCwd) = none) :
    handleStop st d defaultCwd files failsAt now = (none, st) := by
  simp [handleStop, hcache, hactive]

/-- Payload of a stop event arriving in project `/b` with nothing cached. -/
def c3NoSessionData : PromptData :=
  { actual_prompt := none, possiblePrompt := none, env_claude_prompt := none
    env_user_input := none, cwd := some "/b" }

/-- Witness for the amended claim at the freshly started manager. -/
theorem handleStop_noop_when_no_session_witness :
    initState.currentSession = none
    ∧ getActiveSession initState.db "/b" = none
    ∧ handleStop initState c3NoSessionData "/b" [] (fun _ => false) 3 = (none, initState) :=
  ⟨rfl, rfl,
    handleStop_noop_when_no_session initState c3NoSessionData "/b" [] (fun _ => false) 3 rfl rfl⟩

/-! ## Claim C9: diffing a checkpoint against itself -/

/-- For one path, comparing a snapshot list against itself yields no
change record. -/
lemma classifyPath_self (rows : List FileSnapshot) (p : String) :
    classifyPath rows rows p = none := by
  unfold classifyPath
  cases mapGet rows p <;> simp

/-- Comparing a snapshot list against itself yields no changes at all. -/
lemma diffChanges_self (rows : List FileSnapshot) : diffChanges rows rows = [] := by
  unfold diffChanges
  rw [List.filterMap_eq_nil_iff]
  intro p _
  exact classifyPath_self rows p

/-- Diffing an existing checkpoint against itself resolves with an empty
change list and an all-zero summary. -/
theorem diffCheckpoints_self (db : DB) (cid : Nat) (r : DiffResult)
    (h : diffCheckpoints db cid cid = some r) :
    r.changes = [] ∧ r.summary = ⟨0, 0, 0⟩ := by
  unfold diffCheckpoints at h
  cases hf : db.checkpoints.find? (fun c => c.id == cid) with
  | none => rw [hf] at h; simp at h
  | some cp =>
    rw [hf] at h
    simp only [Option.some.injEq] at h
    rw [← h]
    simp [diffChanges_self, diffSummary]

/-- A checkpoint row to diff against itself. -/
def c9Checkpoint : Checkpoint :=
  { id := 1, sessionId := 0, projectPath := "/p", projectName := "p"
    prompt := "p1", message := "m1", fileCount := 1, totalSize := 6
    userPrompt := some "p1", timestamp := 4, metadata := "{}", createdAt := 4 }

/-- Its single snapshot row. -/
def c9Row : FileSnapshot :=
  { checkpointId := 1, filePath := "/p/x.txt", relativePath := "x.txt"
    content := some "hello\n", size := 6, modifiedTime := 0, extension := ".txt"
    isDirectory := false }

/-- A database holding that checkpoint. -/
def c9DB : DB := { sessions := [], checkpoints := [c9Checkpoint], file_snapshots := [c9Row] }

/-- The value `diffCheckpoints c9DB 1 1` resolves with. -/
def c9Result : DiffResult :=
  { current := ⟨1, "m1", 4⟩, previous := ⟨1, "m1", 4⟩, changes := [], summary := ⟨0, 0, 0⟩ }

/-- Witness: the self-diff of a concrete stored checkpoint. -/
theorem diffCheckpoints_self_witness :
    diffCheckpoints c9DB 1 1 = some c9Result
    ∧ (c9Result.changes = [] ∧ c9Result.summary = ⟨0, 0, 0⟩) :=
  ⟨by decide, diffCheckpoints_self c9DB 1 c9Result (by decide)⟩

/-! ## Claim C4: at most one active session per project path -/

/-- A map that changes neither `projectPath` nor `sessionEndTime` leaves
the active count untouched. -/
lemma countActive_map_preserve (f : Session → Session)
    (hf : ∀ s, (f s).projectPath = s.projectPath ∧ (f s).sessionEndTime = s.sessionEndTime)
    (p : String) (l : List Session) :
    ((l.map f).filter (isActiveFor p)).length = (l.filter (isActiveFor p)).length := by
  induction l with
  | nil => rfl
  | cons s rest ih =>
    have hfs : isActiveFor p (f s) = isActiveFor p s := by
      unfold isActiveFor
      rw [(hf s).1, (hf s).2]
    simp only [List.map_cons, List.filter_cons, hfs]
    cases isActiveFor p s <;> simp [ih]

/-- A map that can only deactivate sessions does not increase the active
count. -/
lemma countActive_map_close_le (p : String) (f : Session → Session)
    (hf : ∀ s, isActiveFor p (f s) = true → isActiveFor p s = true)
    (l : List Session) :
    ((l.map f).filter (isActiveFor p)).length ≤ (l.filter (isActiveFor p)).length := by
  induction l with
  | nil => exact Nat.le_refl _
  | cons s rest ih =>
    simp only [List.map_cons, List.filter_cons]
    cases hfs : isActiveFor p (f s) with
    | true => rw [hf s hfs]; simpa using ih
    | false => cases isActiveFor p s <;> simp [ih] <;> omega

/-- On a nonempty list, `ORDER BY ... LIMIT 1` always returns a row. -/
lemma pickLatestStart_cons_isSome (s : Session) (rest : List Session) :
    (pickLatestStart (s :: rest)).isSome = true := by
  unfold pickLatestStart
  cases pickLatestStart rest with
  | none => rfl
  | some a => by_cases h : s.sessionStartTime < a.sessionStartTime <;> simp [h]

/-- `ORDER BY ... LIMIT 1` returns nothing only on an empty result set. -/
lemma pickLatestStart_eq_none (l : List Session) (h : pickLatestStart l = none) :
    l = [] := by
  cases l with
  | nil => rfl
  | cons s rest =>
    have hs := pickLatestStart_cons_isSome s rest
    rw [h] at hs
    simp at hs

/-- An empty `getActiveSession` answer means no active row exists for the
path. -/
lemma getActiveSession_none (db : DB) (p : String)
    (h : getActiveSession db p = none) : db.sessions.filter (isActiveFor p) = [] :=
  pickLatestStart_eq_none _ h

/-- The snapshot-insert loop never touches the `sessions` table. -/
lemma insertSnapshots_sessions (cpId : Nat) (failsAt : Nat → Bool) :
    ∀ (files : List FileInfo) (db : DB) (i : Nat),
      (insertSnapshots cpId failsAt db files i).2.sessions = db.sessions := by
  intro files
  induction files with
  | nil => intro db i; rfl
  | cons f rest ih =>
    intro db i
    unfold insertSnapshots
    cases hf : failsAt i <;> simp [hf, ih]

/-- Checkpoint creation never changes any project's active-session count:
it only appends checkpoint and snapshot rows and bumps
`totalFileChanges`/`updatedAt` on the owning session. -/
lemma countActive_createCheckpoint (db : DB) (session : Session) (files : List FileInfo)
    (failsAt : Nat → Bool) (now freshId : Nat) (p : String) :
    countActive (createCheckpoint db session files failsAt now freshId).2 p
      = countActive db p := by
  simp only [createCheckpoint]
  split
  · rfl
  · split
    · unfold countActive
      simp only [insertSnapshots_sessions]
      exact countActive_map_preserve _
        (fun s => by cases h : s.id == session.id <;> simp [h]) p db.sessions
    · unfold countActive
      simp [insertSnapshots_sessions]

/-- A stop event can only lower a project's active-session count. -/
lemma countActive_handleStop_le (st : ManagerState) (d : PromptData) (defaultCwd : String)
    (files : List FileInfo) (failsAt : Nat → Bool) (now : Nat) (p : String) :
    countActive (handleStop st d defaultCwd files failsAt now).2.db p
      ≤ countActive st.db p := by
  have hclose : ∀ (cur : Session) (s : Session),
      isActiveFor p (if s.id == cur.id then
        { s with sessionEndTime := some now, updatedAt := now } else s) = true →
      isActiveFor p s = true := by
    intro cur s hs
    cases h : s.id == cur.id with
    | true => rw [h] at hs; simp [isActiveFor] at hs
    | false => rwa [h] at hs
  unfold handleStop
  cases hc : st.currentSession with
  | some cur =>
    simp only [hc]
    calc ((((createCheckpoint st.db cur files failsAt now st.nextId).2).sessions.map _).filter
            (isActiveFor p)).length
        ≤ (((createCheckpoint st.db cur files failsAt now st.nextId).2).sessions.filter
            (isActiveFor p)).length := countActive_map_close_le p _ (hclose cur) _
      _ = countActive st.db p := countActive_createCheckpoint _ _ _ _ _ _ p
  | none =>
    cases hg : getActiveSession st.db (d.cwd.getD defaultCwd) with
    | some s =>
      simp only [hc, hg]
      calc ((((createCheckpoint st.db s files failsAt now st.nextId).2).sessions.map _).filter
              (isActiveFor p)).length
          ≤ (((createCheckpoint st.db s files failsAt now st.nextId).2).sessions.filter
              (isActiveFor p)).length := countActive_map_close_le p _ (hclose s) _
        _ = countActive st.db p := countActive_createCheckpoint _ _ _ _ _ _ p
    | none => simp only [hc, hg]; exact Nat.le_refl _

/-- A prompt event keeps every project's active-session count at most
one. -/
lemma countActive_handlePrompt (st : ManagerState) (d : PromptData) (defaultCwd : String)
    (now : Nat) (p : String)
    (hinv : ∀ q, countActive st.db q ≤ 1) :
    countActive (handleUserPromptSubmit st d defaultCwd now).2.db p ≤ 1 := by
  unfold handleUserPromptSubmit
  cases hg : getActiveSession st.db (d.cwd.getD defaultCwd) with
  | some s =>
    simp only [hg]
    unfold countActive
    rw [countActive_map_preserve _
      (fun s' => by cases h : s'.id == s.id <;> simp [h]) p st.db.sessions]
    exact hinv p
  | none =>
    simp only [hg]
    unfold countActive
    simp only [List.filter_append]
    by_cases hp : d.cwd.getD defaultCwd = p
    · have hempty : st.db.sessions.filter (isActiveFor p) = [] := by
        rw [← hp]; exact getActiveSession_none _ _ hg
      rw [hempty]
      simp only [List.nil_append, List.length_filter_le]
      exact le_trans (List.length_filter_le _ _) (by simp)
    · have hsing : List.filter (isActiveFor p)
          [{ id := st.nextId, projectPath := d.cwd.getD defaultCwd
             projectName := basenameOf (d.cwd.getD defaultCwd)
             totalFileChanges := 0, sessionStartTime := now, sessionEndTime := none
             lastPrompt := some (extractPromptText d), lastPromptTime := some now
             createdAt := now, updatedAt := now }] = [] := by
        simp [isActiveFor, hp]
      rw [hsing, List.append_nil]
      exact hinv p

/-- One lifecycle event preserves the at-most-one-active invariant. -/
lemma step_preserves_inv (st : ManagerState) (e : Event)
    (hinv : ∀ q, countActive st.db q ≤ 1) (p : String) :
    countActive (step st e).db p ≤ 1 := by
  cases e with
  | userPromptSubmit d c now => exact countActive_handlePrompt st d c now p hinv
  | stop d c files failsAt now =>
    exact le_trans (countActive_handleStop_le st d c files failsAt now p) (hinv p)

/-- The invariant survives any event sequence from an invariant state. -/
lemma run_inv_aux (es : List Event) :
    ∀ st : ManagerState, (∀ q, countActive st.db q ≤ 1) →
      ∀ p, countActive (es.foldl step st).db p ≤ 1 := by
  induction es with
  | nil => intro st h p; exact h p
  | cons e rest ih =>
    intro st h p
    exact ih (step st e) (fun q => step_preserves_inv st e h q) p

/-- After any sequence of prompt/stop events, every project path has at
most one session row without an end time; and a prompt event hitting an
existing active session refreshes `lastPrompt`/`lastPromptTime` (and
`updatedAt`) in place, creating no new session row. -/
theorem at_most_one_active_session :
    (∀ (es : List Event) (p : String), countActive (run es).db p ≤ 1)
    ∧ (∀ (st : ManagerState) (d : PromptData) (defaultCwd : String) (now : Nat) (s : Session),
        getActiveSession st.db (d.cwd.getD defaultCwd) = some s →
        (handleUserPromptSubmit st d defaultCwd now).2.db.sessions
          = st.db.sessions.map (fun srow =>
              if srow.id == s.id then
                { srow with lastPrompt := some (extractPromptText d)
                            lastPromptTime := some now, updatedAt := now }
              else srow)) := by
  constructor
  · intro es p
    exact run_inv_aux es initState (fun q => Nat.zero_le 1) p
  · intro st d c now s h
    simp [handleUserPromptSubmit, h]

/-- A prompt payload for project `/a`. -/
def c4Data : PromptData :=
  { actual_prompt := some "write tests", possiblePrompt := none
    env_claude_prompt := none, env_user_input := none, cwd := some "/a" }

/-- The session row created by the first prompt event. -/
def c4Session : Session :=
  { id := 0, projectPath := "/a", projectName := "a", totalFileChanges := 0
    sessionStartTime := 1, sessionEndTime := none, lastPrompt := some "write tests"
    lastPromptTime := some 1, createdAt := 1, updatedAt := 1 }

/-- The manager state after that first prompt event. -/
def c4State : ManagerState := run [Event.userPromptSubmit c4Data "/a" 1]

/-- Witness: the invariant after a concrete event sequence, and the
in-place refresh of a concrete active session. -/
theorem at_most_one_active_session_witness :
    countActive (run [Event.userPromptSubmit c4Data "/a" 1]).db "/a" ≤ 1
    ∧ (handleUserPromptSubmit c4State c4Data "/a" 2).2.db.sessions
        = c4State.db.sessions.map (fun srow =>
            if srow.id == c4Session.id then
              { srow with lastPrompt := some (extractPromptText c4Data)
                          lastPromptTime := some 2, updatedAt := 2 }
            else srow) :=
  ⟨at_most_one_active_session.1 _ "/a",
   at_most_one_active_session.2 c4State c4Data "/a" 2 c4Session (by decide)⟩

/-! ## Claim C5: classification of every path by the diff engine -/

/-- Membership in the dedup helper: an element survives iff it occurs in
the input and was not already seen. -/
lemma mem_dedupFirstAux (l : List String) :
    ∀ (seen : List String) (a : String),
      a ∈ dedupFirstAux seen l ↔ (a ∈ l ∧ a ∉ seen) := by
  induction l with
  | nil => intro seen a; simp [dedupFirstAux]
  | cons b rest ih =>
    intro seen a
    by_cases hb : b ∈ seen
    · have hred : dedupFirstAux seen (b :: rest) = dedupFirstAux seen rest := by
        have hct : seen.contains b = true := by simp [hb]
        simp only [dedupFirstAux, hct]
        simp
      rw [hred, ih]
      simp only [List.mem_cons]
      constructor
      · rintro ⟨hmem, hns⟩
        exact ⟨Or.inr hmem, hns⟩
      · rintro ⟨hmem, hns⟩
        rcases hmem with rfl | h
        · exact absurd hb hns
        · exact ⟨h, hns⟩
    · have hred : dedupFirstAux seen (b :: rest) = b :: dedupFirstAux (b :: seen) rest := by
        have hcf : seen.contains b = false := by simpa using hb
        simp only [dedupFirstAux, hcf]
        exact if_neg (fun hcontra => Bool.noConfusion hcontra)
      rw [hred]
      have ih' := ih (b :: seen) a
      constructor
      · intro hmem
        rcases List.mem_cons.mp hmem with rfl | hmem2
        · exact ⟨List.mem_cons_self a rest, hb⟩
        · obtain ⟨hr, hns⟩ := ih'.mp hmem2
          exact ⟨List.mem_cons_of_mem _ hr,
            fun hs => hns (List.mem_cons_of_mem _ hs)⟩
      · rintro ⟨hmem, hns⟩
        by_cases hab : a = b
        · subst hab
          exact List.mem_cons_self _ _
        · rcases List.mem_cons.mp hmem with rfl | h
          · exact absurd rfl hab
          · refine List.mem_cons_of_mem _ (ih'.mpr ⟨h, ?_⟩)
            intro hs
            rcases List.mem_cons.mp hs with rfl | hs2
            · exact hab rfl
            · exact hns hs2

/-- First-occurrence deduplication preserves membership. -/
lemma mem_dedupFirst (l : List String) (a : String) : a ∈ dedupFirst l ↔ a ∈ l := by
  unfold dedupFirst
  rw [mem_dedupFirstAux]
  simp

/-- A path is a key of the snapshot map iff some row carries it. -/
lemma mem_mapKeys (files : List FileSnapshot) (p : String) :
    p ∈ mapKeys files ↔ ∃ f ∈ files, f.filePath = p := by
  unfold mapKeys
  rw [mem_dedupFirst]
  simp

/-- A path is iterated over by the diff loop iff it occurs in either
checkpoint's snapshot set. -/
lemma mem_allPaths (currentFiles previousFiles : List FileSnapshot) (p : String) :
    p ∈ allPaths currentFiles previousFiles
      ↔ ((∃ f ∈ currentFiles, f.filePath = p) ∨ (∃ f ∈ previousFiles, f.filePath = p)) := by
  unfold allPaths
  rw [mem_dedupFirst, List.mem_append, mem_mapKeys, mem_mapKeys]

/-- With no duplicate paths in a snapshot set, the last-wins `Map` lookup
is plain first-match search. -/
lemma mapGet_eq_find (files : List FileSnapshot) (p : String)
    (h : (files.map (fun f => f.filePath)).Nodup) :
    mapGet files p = files.find? (fun f => f.filePath == p) := by
  induction files with
  | nil => rfl
  | cons f rest ih =>
    have hnotin : f.filePath ∉ rest.map (fun g => g.filePath) := (List.nodup_cons.mp h).1
    have hrest : (rest.map (fun g => g.filePath)).Nodup := (List.nodup_cons.mp h).2
    unfold mapGet
    rw [List.reverse_cons, List.find?_append]
    cases hfp : (f.filePath == p) with
    | true =>
      have hnone : rest.reverse.find? (fun g => g.filePath == p) = none := by
        rw [List.find?_eq_none]
        intro g hg
        have hgmem : g.filePath ∈ rest.map (fun g' => g'.filePath) :=
          List.mem_map_of_mem _ (List.mem_reverse.mp hg)
        simp only [beq_iff_eq]
        intro he
        exact hnotin ((he.trans (beq_iff_eq.mp hfp).symm) ▸ hgmem)
      rw [hnone, Option.none_or]
      simp [List.find?, hfp]
    | false =>
      have hsing : ([f].find? (fun g => g.filePath == p)) = none := by
        simp [List.find?, hfp]
      rw [hsing, Option.or_none]
      rw [show (f :: rest).find? (fun g => g.filePath == p)
            = rest.find? (fun g => g.filePath == p) from by simp [List.find?, hfp]]
      exact ih hrest

/-- Classification as the claim words it, acting on the two lookups for
one path: present only in current is `added` carrying `sizeAfter`;
present only in previous is `deleted` carrying `sizeBefore`; present in
both with identical content yields no record; differing content yields
`modified` carrying the generated diff string.  (The `file` field and the
diff text follow the code's record shape.) -/
def claimClassify (p : String) :
    Option FileSnapshot → Option FileSnapshot → Option Change
  | some currentFile, none =>
    some { type := .added
           file := if currentFile.relativePath == "" then p else currentFile.relativePath
           diff := none, sizeBefore := none, sizeAfter := some currentFile.size }
  | none, some previousFile =>
    some { type := .deleted
           file := if previousFile.relativePath == "" then p else previousFile.relativePath
           diff := none, sizeBefore := some previousFile.size, sizeAfter := none }
  | some currentFile, some previousFile =>
    if currentFile.content ≠ previousFile.content then
      some { type := .modified
             file := if currentFile.relativePath == "" then p else currentFile.relativePath
             diff := some (generateSimpleDiff (previousFile.content.getD "")
               (currentFile.content.getD ""))
             sizeBefore := some previousFile.size, sizeAfter := some currentFile.size }
    else none
  | none, none => none

/-- When both ids resolve, the diff walks exactly the paths present in
either snapshot set, classifies each path from its two (unique, given
duplicate-free keys) lookups as the claim states, and the summary is the
per-type count over the emitted changes. -/
theorem diffCheckpoints_classification (db : DB) (currentId previousId : Nat)
    (r : DiffResult) (p : String)
    (hr : diffCheckpoints db currentId previousId = some r)
    (hcur : ((snapshotRowsOf db currentId).map (fun f => f.filePath)).Nodup)
    (hprev : ((snapshotRowsOf db previousId).map (fun f => f.filePath)).Nodup) :
    (p ∈ allPaths (snapshotRowsOf db currentId) (snapshotRowsOf db previousId)
      ↔ ((∃ f ∈ snapshotRowsOf db currentId, f.filePath = p)
        ∨ (∃ f ∈ snapshotRowsOf db previousId, f.filePath = p)))
    ∧ classifyPath (snapshotRowsOf db currentId) (snapshotRowsOf db previousId) p
        = claimClassify p
            ((snapshotRowsOf db currentId).find? (fun f => f.filePath == p))
            ((snapshotRowsOf db previousId).find? (fun f => f.filePath == p))
    ∧ r.changes = (allPaths (snapshotRowsOf db currentId)
        (snapshotRowsOf db previousId)).filterMap
          (classifyPath (snapshotRowsOf db currentId) (snapshotRowsOf db previousId))
    ∧ r.summary =
        { added := (r.changes.filter (fun c => c.type == ChangeType.added)).length
          modified := (r.changes.filter (fun c => c.type == ChangeType.modified)).length
          deleted := (r.changes.filter (fun c => c.type == ChangeType.deleted)).length } := by
  unfold diffCheckpoints at hr
  cases hf1 : db.checkpoints.find? (fun c => c.id == currentId) with
  | none => rw [hf1] at hr; simp at hr
  | some ccur =>
    cases hf2 : db.checkpoints.find? (fun c => c.id == previousId) with
    | none => rw [hf1, hf2] at hr; simp at hr
    | some cprev =>
      rw [hf1, hf2] at hr
      simp only [Option.some.injEq] at hr
      have hcl : classifyPath (snapshotRowsOf db currentId) (snapshotRowsOf db previousId) p
          = claimClassify p (mapGet (snapshotRowsOf db currentId) p)
              (mapGet (snapshotRowsOf db previousId) p) := by
        unfold classifyPath claimClassify
        cases mapGet (snapshotRowsOf db currentId) p <;>
          cases mapGet (snapshotRowsOf db previousId) p <;> rfl
      refine ⟨mem_allPaths _ _ p, ?_, ?_, ?_⟩
      · rw [hcl, mapGet_eq_find _ _ hcur, mapGet_eq_find _ _ hprev]
      · rw [← hr]
        rfl
      · rw [← hr]
        rfl

/-- Snapshot of `x.txt` in the earlier checkpoint A. -/
def c5PrevRow : FileSnapshot :=
  { checkpointId := 1, filePath := "/p/x.txt", relativePath := "x.txt"
    content := some "hello\n", size := 6, modifiedTime := 0, extension := ".txt"
    isDirectory := false }

/-- Snapshot of `x.txt` in the later checkpoint B. -/
def c5CurRowX : FileSnapshot :=
  { checkpointId := 2, filePath := "/p/x.txt", relativePath := "x.txt"
    content := some "hello world\n", size := 12, modifiedTime := 0, extension := ".txt"
    isDirectory := false }

/-- Snapshot of the new file `y.txt` in checkpoint B. -/
def c5CurRowY : FileSnapshot :=
  { checkpointId := 2, filePath := "/p/y.txt", relativePath := "y.txt"
    content := some "new\n", size := 4, modifiedTime := 0, extension := ".txt"
    isDirectory := false }

/-- Checkpoint A. -/
def c5CheckpointA : Checkpoint :=
  { id := 1, sessionId := 0, projectPath := "/p", projectName := "p"
    prompt := "pA", message := "A", fileCount := 1, totalSize := 6
    userPrompt := none, timestamp := 1, metadata := "{}", createdAt := 1 }

/-- Checkpoint B. -/
def c5CheckpointB : Checkpoint :=
  { id := 2, sessionId := 0, projectPath := "/p", projectName := "p"
    prompt := "pB", message := "B", fileCount := 2, totalSize := 16
    userPrompt := none, timestamp := 2, metadata := "{}", createdAt := 2 }

/-- Database holding the spec scenario's two checkpoints. -/
def c5DB : DB :=
  { sessions := [], checkpoints := [c5CheckpointA, c5CheckpointB]
    file_snapshots := [c5PrevRow, c5CurRowX, c5CurRowY] }

/-- The value `diffCheckpoints c5DB 2 1` resolves with: `x.txt` modified
with a `-hello` / `+hello world` pair, `y.txt` added with `sizeAfter` 4,
summary one added, one modified, zero deleted. -/
def c5Result : DiffResult :=
  { current := ⟨2, "B", 2⟩, previous := ⟨1, "A", 1⟩
    changes :=
      [{ type := .modified, file := "x.txt"
         diff := some "@@ -1,2 +1,2 @@\n-hello\n+hello world"
         sizeBefore := some 6, sizeAfter := some 12 },
       { type := .added, file := "y.txt", diff := none
         sizeBefore := none, sizeAfter := some 4 }]
    summary := ⟨1, 1, 0⟩ }

/-- Witness: the spec's scenario, with exactly two changes and summary
one added / one modified / zero deleted, and the classification theorem
instantiated at the added path. -/
theorem diffCheckpoints_classification_witness :
    diffCheckpoints c5DB 2 1 = some c5Result
    ∧ c5Result.changes.length = 2
    ∧ c5Result.summary = ⟨1, 1, 0⟩
    ∧ (("/p/y.txt" ∈ allPaths (snapshotRowsOf c5DB 2) (snapshotRowsOf c5DB 1)
          ↔ ((∃ f ∈ snapshotRowsOf c5DB 2, f.filePath = "/p/y.txt")
            ∨ (∃ f ∈ snapshotRowsOf c5DB 1, f.filePath = "/p/y.txt")))
        ∧ classifyPath (snapshotRowsOf c5DB 2) (snapshotRowsOf c5DB 1) "/p/y.txt"
            = claimClassify "/p/y.txt"
                ((snapshotRowsOf c5DB 2).find? (fun f => f.filePath == "/p/y.txt"))
                ((snapshotRowsOf c5DB 1).find? (fun f => f.filePath == "/p/y.txt"))
        ∧ c5Result.changes = (allPaths (snapshotRowsOf c5DB 2)
            (snapshotRowsOf c5DB 1)).filterMap
              (classifyPath (snapshotRowsOf c5DB 2) (snapshotRowsOf c5DB 1))
        ∧ c5Result.summary =
            (⟨(c5Result.changes.filter (fun c => c.type == ChangeType.added)).length,
              (c5Result.changes.filter (fun c => c.type == ChangeType.modified)).length,
              (c5Result.changes.filter (fun c => c.type == ChangeType.deleted)).length⟩
              : DiffSummary)) :=
  ⟨by decide, by decide, by decide,
   diffCheckpoints_classification c5DB 2 1 c5Result "/p/y.txt"
     (by decide) (by decide) (by decide)⟩

/-! ## Claims C7 and C10: the restore engine -/

/-- Two filesystem states with the same file map and directory set are
equal. -/
lemma FS.eq_of_parts (a b : FS) (hf : a.files = b.files) (hd : a.dirs = b.dirs) :
    a = b := by
  cases a
  cases b
  cases hf
  cases hd
  rfl

/-- The content the restore loop over these rows leaves at a path: the
last row carrying the path with non-null content, if any. -/
def lastWrite : List FileSnapshot → String → Option String
  | [], _ => none
  | row :: rest, q =>
    match lastWrite rest q with
    | some c => some c
    | none => if q == row.filePath then row.content else none

/-- The restored-file counter counts exactly the rows with non-null
content. -/
lemma restore_foldl_count (rows : List FileSnapshot) :
    ∀ (fs : FS) (k : Nat),
      (rows.foldl restoreStep (fs, k)).2
        = k + rows.countP (fun r => r.content.isSome) := by
  induction rows with
  | nil => intro fs k; simp
  | cons row rest ih =>
    intro fs k
    cases hc : row.content with
    | some c =>
      have hstep : restoreStep (fs, k) row
          = ((fs.mkdirp (dirnameOf row.filePath)).writeFile row.filePath c, k + 1) := by
        simp [restoreStep, hc]
      rw [List.foldl_cons, hstep, ih, List.countP_cons]
      simp [hc]
      omega
    | none =>
      have hstep : restoreStep (fs, k) row = (fs.mkdirp (dirnameOf row.filePath), k) := by
        simp [restoreStep, hc]
      rw [List.foldl_cons, hstep, ih, List.countP_cons]
      simp [hc]

/-- Pointwise effect of the restore loop on the file map. -/
lemma restore_foldl_files (rows : List FileSnapshot) :
    ∀ (fs : FS) (k : Nat) (q : String),
      ((rows.foldl restoreStep (fs, k)).1).files q
        = match lastWrite rows q with
          | some c => some c
          | none => fs.files q := by
  induction rows with
  | nil => intro fs k q; rfl
  | cons row rest ih =>
    intro fs k q
    cases hc : row.content with
    | some c =>
      have hstep : restoreStep (fs, k) row
          = ((fs.mkdirp (dirnameOf row.filePath)).writeFile row.filePath c, k + 1) := by
        simp [restoreStep, hc]
      rw [List.foldl_cons, hstep, ih]
      cases hlw : lastWrite rest q with
      | some c2 => simp [lastWrite, hlw]
      | none =>
        by_cases hq : q = row.filePath
        · subst hq
          simp [lastWrite, hlw, hc, FS.writeFile, FS.mkdirp]
        · simp [lastWrite, hlw, hc, FS.writeFile, FS.mkdirp, hq]
    | none =>
      have hstep : restoreStep (fs, k) row = (fs.mkdirp (dirnameOf row.filePath), k) := by
        simp [restoreStep, hc]
      rw [List.foldl_cons, hstep, ih]
      cases hlw : lastWrite rest q with
      | some c2 => simp [lastWrite, hlw]
      | none =>
        by_cases hq : q = row.filePath
        · subst hq
          simp [lastWrite, hlw, hc, FS.mkdirp]
        · simp [lastWrite, hlw, hc, FS.mkdirp, hq]

/-- Pointwise effect of the restore loop on the directory set. -/
lemma restore_foldl_dirs (rows : List FileSnapshot) :
    ∀ (fs : FS) (k : Nat) (q : String),
      ((rows.foldl restoreStep (fs, k)).1).dirs q
        = (fs.dirs q || rows.any (fun r =>
            (ancestorDirs (dirnameOf r.filePath)).contains q)) := by
  induction rows with
  | nil => intro fs k q; simp
  | cons row rest ih =>
    intro fs k q
    cases hc : row.content with
    | some c =>
      have hstep : restoreStep (fs, k) row
          = ((fs.mkdirp (dirnameOf row.filePath)).writeFile row.filePath c, k + 1) := by
        simp [restoreStep, hc]
      rw [List.foldl_cons, hstep, ih, List.any_cons]
      simp [FS.writeFile, FS.mkdirp, Bool.or_assoc]
    | none =>
      have hstep : restoreStep (fs, k) row = (fs.mkdirp (dirnameOf row.filePath), k) := by
        simp [restoreStep, hc]
      rw [List.foldl_cons, hstep, ih, List.any_cons]
      simp [FS.mkdirp, Bool.or_assoc]

/-- `restoreCheckpoint` on a found checkpoint, spelled out. -/
lemma restoreCheckpoint_found (db : DB) (checkpointId : Nat) (fs : FS) (cp : Checkpoint)
    (hf : db.checkpoints.find? (fun c => c.id == checkpointId) = some cp) :
    restoreCheckpoint db checkpointId fs
      = some ({ filesRestored := ((snapshotRowsOf db checkpointId).foldl restoreStep (fs, 0)).2
                totalFiles := (snapshotRowsOf db checkpointId).length
                errors := [] },
              ((snapshotRowsOf db checkpointId).foldl restoreStep (fs, 0)).1) := by
  unfold restoreCheckpoint
  rw [hf]

/-- Restoring an existing checkpoint twice in succession returns the same
result and leaves the filesystem exactly as a single restore does: every
snapshot write is an overwrite with fixed content and directory creation
is idempotent. -/
theorem restoreCheckpoint_idempotent (db : DB) (checkpointId : Nat) (fs : FS)
    (r1 : RestoreResult) (fs1 : FS)
    (h : restoreCheckpoint db checkpointId fs = some (r1, fs1)) :
    restoreCheckpoint db checkpointId fs1 = some (r1, fs1) := by
  cases hf : db.checkpoints.find? (fun c => c.id == checkpointId) with
  | none => simp [restoreCheckpoint, hf] at h
  | some cp =>
    rw [restoreCheckpoint_found db checkpointId fs cp hf] at h
    simp only [Option.some.injEq, Prod.mk.injEq] at h
    obtain ⟨hr, hfs⟩ := h
    have hcnt : ((snapshotRowsOf db checkpointId).foldl restoreStep (fs1, 0)).2
        = ((snapshotRowsOf db checkpointId).foldl restoreStep (fs, 0)).2 := by
      rw [restore_foldl_count, restore_foldl_count]
    have hfs2 : ((snapshotRowsOf db checkpointId).foldl restoreStep (fs1, 0)).1 = fs1 := by
      apply FS.eq_of_parts
      · funext q
        rw [restore_foldl_files]
        cases hlw : lastWrite (snapshotRowsOf db checkpointId) q with
        | some c =>
          rw [← hfs, restore_foldl_files, hlw]
        | none => rfl
      · funext q
        rw [restore_foldl_dirs]
        have hd1 : fs1.dirs q = (fs.dirs q || (snapshotRowsOf db checkpointId).any
            (fun r => (ancestorDirs (dirnameOf r.filePath)).contains q)) := by
          rw [← hfs, restore_foldl_dirs]
        rw [hd1, Bool.or_assoc, Bool.or_self]
    rw [restoreCheckpoint_found db checkpointId fs1 cp hf, hcnt, hfs2, hr]

/-- A checkpoint whose only snapshot row has empty tables around it. -/
def c7Checkpoint : Checkpoint :=
  { id := 3, sessionId := 0, projectPath := "/p", projectName := "p"
    prompt := "p3", message := "m3", fileCount := 0, totalSize := 0
    userPrompt := none, timestamp := 5, metadata := "{}", createdAt := 5 }

/-- A database holding a checkpoint with no snapshot rows. -/
def c7DB : DB := { sessions := [], checkpoints := [c7Checkpoint], file_snapshots := [] }

/-- An empty filesystem. -/
def c7FS : FS := { files := fun _ => none, dirs := fun _ => false }

/-- Witness: restoring a concrete stored checkpoint twice equals
restoring it once. -/
theorem restoreCheckpoint_idempotent_witness :
    restoreCheckpoint c7DB 3 c7FS
      = some ({ filesRestored := 0, totalFiles := 0, errors := [] }, c7FS)
    ∧ restoreCheckpoint c7DB 3 c7FS
      = some ({ filesRestored := 0, totalFiles := 0, errors := [] }, c7FS) :=
  ⟨rfl, restoreCheckpoint_idempotent c7DB 3 c7FS
    { filesRestored := 0, totalFiles := 0, errors := [] } c7FS rfl⟩

/-- If a row with null content is among these, fewer rows have content
than there are rows. -/
lemma countP_isSome_lt_length (l : List FileSnapshot) (row : FileSnapshot)
    (hmem : row ∈ l) (hnull : row.content = none) :
    l.countP (fun r => r.content.isSome) < l.length := by
  induction l with
  | nil => cases hmem
  | cons a rest ih =>
    rw [List.countP_cons, List.length_cons]
    rcases List.mem_cons.mp hmem with rfl | hmem2
    · have hle := List.countP_le_length (fun r => r.content.isSome) (l := rest)
      simp [hnull]
      omega
    · have hlt2 := ih hmem2
      have hle : (if a.content.isSome = true then 1 else 0) ≤ 1 := by
        split <;> omega
      omega

/-- If every row carrying a path has null content, the restore loop
writes nothing at that path. -/
lemma lastWrite_eq_none (l : List FileSnapshot) (q : String)
    (h : ∀ r ∈ l, r.filePath = q → r.content = none) :
    lastWrite l q = none := by
  induction l with
  | nil => rfl
  | cons a rest ih =>
    have ha := h a (List.mem_cons_self a rest)
    have hrest : ∀ r ∈ rest, r.filePath = q → r.content = none :=
      fun r hrr => h r (List.mem_cons_of_mem _ hrr)
    simp only [lastWrite, ih hrest]
    by_cases hq : q = a.filePath
    · subst hq
      simp [ha rfl]
    · simp [hq]

/-- In the restore result, a non-directory snapshot row with null content
is counted in `totalFiles` and gets its parent directory created, but no
file is written for it, it is not counted in `filesRestored`, and nothing
is appended to `errors` — so `filesRestored + errors.length` is strictly
below `totalFiles` although no write failed. -/
theorem restore_null_content_undercount (db : DB) (checkpointId : Nat) (fs : FS)
    (res : RestoreResult) (fsOut : FS) (row : FileSnapshot)
    (h : restoreCheckpoint db checkpointId fs = some (res, fsOut))
    (hmem : row ∈ snapshotRowsOf db checkpointId)
    (hnull : row.content = none)
    (honly : ∀ r ∈ snapshotRowsOf db checkpointId,
      r.filePath = row.filePath → r.content = none) :
    res.totalFiles = (snapshotRowsOf db checkpointId).length
    ∧ res.errors = []
    ∧ res.filesRestored + res.errors.length < res.totalFiles
    ∧ fsOut.dirs (dirnameOf row.filePath) = true
    ∧ fsOut.files row.filePath = fs.files row.filePath := by
  cases hf : db.checkpoints.find? (fun c => c.id == checkpointId) with
  | none => simp [restoreCheckpoint, hf] at h
  | some cp =>
    rw [restoreCheckpoint_found db checkpointId fs cp hf] at h
    simp only [Option.some.injEq, Prod.mk.injEq] at h
    obtain ⟨hr, hfs⟩ := h
    have hcount : res.filesRestored
        = (snapshotRowsOf db checkpointId).countP (fun r => r.content.isSome) := by
      rw [← hr]
      simp [restore_foldl_count]
    have hlt := countP_isSome_lt_length (snapshotRowsOf db checkpointId) row hmem hnull
    refine ⟨by rw [← hr], by rw [← hr], ?_, ?_, ?_⟩
    · rw [hcount, ← hr]
      simpa using hlt
    · rw [← hfs, restore_foldl_dirs]
      have hany : (snapshotRowsOf db checkpointId).any
          (fun r => (ancestorDirs (dirnameOf r.filePath)).contains
            (dirnameOf row.filePath)) = true := by
        rw [List.any_eq_true]
        refine ⟨row, hmem, ?_⟩
        simp [ancestorDirs]
      rw [hany, Bool.or_true]
    · rw [← hfs, restore_foldl_files,
        lastWrite_eq_none (snapshotRowsOf db checkpointId) row.filePath honly]

/-- A checkpoint owning a single null-content snapshot row. -/
def c10Checkpoint : Checkpoint :=
  { id := 4, sessionId := 0, projectPath := "/p", projectName := "p"
    prompt := "p4", message := "m4", fileCount := 1, totalSize := 0
    userPrompt := none, timestamp := 6, metadata := "{}", createdAt := 6 }

/-- The null-content, non-directory snapshot row. -/
def c10Row : FileSnapshot :=
  { checkpointId := 4, filePath := "/p/n.txt", relativePath := "n.txt"
    content := none, size := 0, modifiedTime := 0, extension := ".txt"
    isDirectory := false }

/-- Database holding that checkpoint and row. -/
def c10DB : DB :=
  { sessions := [], checkpoints := [c10Checkpoint], file_snapshots := [c10Row] }

/-- An empty filesystem to restore onto. -/
def c10FS : FS := { files := fun _ => none, dirs := fun _ => false }

/-- The filesystem after the restore: no file written, only the row's
parent directory created. -/
def c10FSOut : FS :=
  { files := fun _ => none
    dirs := fun q => (ancestorDirs (dirnameOf "/p/n.txt")).contains q }

/-- Witness: restoring the checkpoint with the null-content row reports
one total file, zero restored, no errors. -/
theorem restore_null_content_undercount_witness :
    restoreCheckpoint c10DB 4 c10FS
      = some ({ filesRestored := 0, totalFiles := 1, errors := [] }, c10FSOut)
    ∧ c10Row ∈ snapshotRowsOf c10DB 4
    ∧ c10Row.content = none
    ∧ (({ filesRestored := 0, totalFiles := 1, errors := [] } : RestoreResult).totalFiles
        = (snapshotRowsOf c10DB 4).length
      ∧ ({ filesRestored := 0, totalFiles := 1, errors := [] } : RestoreResult).errors = []
      ∧ ({ filesRestored := 0, totalFiles := 1, errors := [] } : RestoreResult).filesRestored
          + ({ filesRestored := 0, totalFiles := 1, errors := [] } : RestoreResult).errors.length
        < ({ filesRestored := 0, totalFiles := 1, errors := [] } : RestoreResult).totalFiles
      ∧ c10FSOut.dirs (dirnameOf c10Row.filePath) = true
      ∧ c10FSOut.files c10Row.filePath = c10FS.files c10Row.filePath) :=
  ⟨rfl, by decide, rfl,
   restore_null_content_undercount c10DB 4 c10FS
     { filesRestored := 0, totalFiles := 1, errors := [] } c10FSOut c10Row
     rfl (by decide) rfl (by decide)⟩

/-! ## Claim C8: the positional diff walk -/

/-- The position-by-position walk exactly as the claim words it, by
structural recursion over the old line sequence: an index present only
in the new sequence emits the line with a plus sign, present only in the
old sequence with a minus sign, differing lines at one index emit the old
line with a minus sign immediately followed by the new line with a plus
sign, identical lines emit the line after a space. -/
def claimWalk : List String → List String → List String
  | [], nl => nl.map (fun newLine => "+" ++ newLine)
  | oldLine :: os, [] => ("-" ++ oldLine) :: claimWalk os []
  | oldLine :: os, newLine :: ns =>
    if oldLine ≠ newLine then
      ("-" ++ oldLine) :: ("+" ++ newLine) :: claimWalk os ns
    else (" " ++ oldLine) :: claimWalk os ns

/-- Peeling the first index off a loop over `range`. -/
lemma map_range_succ (f : Nat → String) (m : Nat) :
    (List.range (m + 1)).map f = f 0 :: (List.range m).map (fun i => f (i + 1)) := by
  rw [List.range_succ_eq_map, List.map_cons, List.map_map]
  rfl

/-- Shifting the loop index by one drops the heads of both sequences. -/
lemma diffLineAt_succ (o n : String) (os ns : List String) (i : Nat) :
    diffLineAt (o :: os) (n :: ns) (i + 1) = diffLineAt os ns i := by
  simp [diffLineAt]

/-- Shifting the loop index by one on an exhausted old sequence. -/
lemma diffLineAt_succ_left (n : String) (ns : List String) (i : Nat) :
    diffLineAt [] (n :: ns) (i + 1) = diffLineAt [] ns i := by
  simp [diffLineAt]

/-- Shifting the loop index by one on an exhausted new sequence. -/
lemma diffLineAt_succ_right (o : String) (os : List String) (i : Nat) :
    diffLineAt (o :: os) [] (i + 1) = diffLineAt os [] i := by
  simp [diffLineAt]

/-- The index loop over an exhausted old sequence emits the claim's walk. -/
lemma walk_join_left (nl : List String) :
    strConcat ((List.range nl.length).map (diffLineAt [] nl))
      = strConcat ((claimWalk [] nl).map (fun l => l ++ "\n")) := by
  induction nl with
  | nil => rfl
  | cons n ns ih =>
    rw [List.length_cons, map_range_succ,
      List.map_congr_left (fun i _ => diffLineAt_succ_left n ns i)]
    show diffLineAt [] (n :: ns) 0
        ++ strConcat ((List.range ns.length).map (diffLineAt [] ns))
      = strConcat ((claimWalk [] (n :: ns)).map (fun l => l ++ "\n"))
    rw [ih, show diffLineAt [] (n :: ns) 0 = "+" ++ n ++ "\n" from by simp [diffLineAt]]
    simp [claimWalk, strConcat, String.append_assoc]

/-- The index loop over an exhausted new sequence emits the claim's walk. -/
lemma walk_join_right (ol : List String) :
    strConcat ((List.range ol.length).map (diffLineAt ol []))
      = strConcat ((claimWalk ol []).map (fun l => l ++ "\n")) := by
  induction ol with
  | nil => rfl
  | cons o os ih =>
    rw [List.length_cons, map_range_succ,
      List.map_congr_left (fun i _ => diffLineAt_succ_right o os i)]
    show diffLineAt (o :: os) [] 0
        ++ strConcat ((List.range os.length).map (diffLineAt os []))
      = strConcat ((claimWalk (o :: os) []).map (fun l => l ++ "\n"))
    rw [ih, show diffLineAt (o :: os) [] 0 = "-" ++ o ++ "\n" from by simp [diffLineAt]]
    simp [claimWalk, strConcat, String.append_assoc]

/-- The index-based diff loop produces exactly the concatenation of the
claim's position-by-position walk, entry by entry terminated with a
newline. -/
lemma walk_join (ol : List String) :
    ∀ nl : List String,
      strConcat ((List.range (max ol.length nl.length)).map (diffLineAt ol nl))
        = strConcat ((claimWalk ol nl).map (fun l => l ++ "\n")) := by
  induction ol with
  | nil =>
    intro nl
    rw [List.length_nil, Nat.zero_max]
    exact walk_join_left nl
  | cons o os ih =>
    intro nl
    cases nl with
    | nil =>
      rw [List.length_nil, Nat.max_zero]
      exact walk_join_right (o :: os)
    | cons n ns =>
      rw [List.length_cons, List.length_cons, Nat.succ_max_succ, map_range_succ,
        List.map_congr_left (fun i _ => diffLineAt_succ o n os ns i)]
      show diffLineAt (o :: os) (n :: ns) 0
          ++ strConcat ((List.range (max os.length ns.length)).map (diffLineAt os ns))
        = strConcat ((claimWalk (o :: os) (n :: ns)).map (fun l => l ++ "\n"))
      rw [ih ns]
      by_cases hon : o = n
      · rw [show diffLineAt (o :: os) (n :: ns) 0 = " " ++ o ++ "\n" from by
          simp [diffLineAt, hon]]
        rw [show claimWalk (o :: os) (n :: ns) = (" " ++ o) :: claimWalk os ns from by
          simp [claimWalk, hon]]
        simp only [strConcat, List.map_cons, String.append_assoc]
      · rw [show diffLineAt (o :: os) (n :: ns) 0 = "-" ++ o ++ "\n" ++ "+" ++ n ++ "\n"
            from by simp [diffLineAt, hon]]
        rw [show claimWalk (o :: os) (n :: ns)
            = ("-" ++ o) :: ("+" ++ n) :: claimWalk os ns from by simp [claimWalk, hon]]
        simp only [strConcat, List.map_cons, String.append_assoc]

/-- A non-whitespace member keeps `dropWhile isWhitespace` nonempty. -/
lemma dropWhile_ws_ne_nil {l : List Char} {c : Char}
    (hc : c ∈ l) (hw : c.isWhitespace = false) :
    l.dropWhile Char.isWhitespace ≠ [] := by
  induction l with
  | nil => cases hc
  | cons a rest ih =>
    rw [List.dropWhile_cons]
    by_cases ha : a.isWhitespace = true
    · rw [if_pos ha]
      rcases List.mem_cons.mp hc with rfl | h
      · rw [hw] at ha
        exact Bool.noConfusion ha
      · exact ih h
    · rw [if_neg ha]
      exact List.cons_ne_nil a _

/-- A non-whitespace member survives `dropWhile isWhitespace`. -/
lemma mem_dropWhile_ws {l : List Char} {c : Char}
    (hc : c ∈ l) (hw : c.isWhitespace = false) :
    c ∈ l.dropWhile Char.isWhitespace := by
  induction l with
  | nil => cases hc
  | cons a rest ih =>
    rw [List.dropWhile_cons]
    by_cases ha : a.isWhitespace = true
    · rw [if_pos ha]
      rcases List.mem_cons.mp hc with rfl | h
      · rw [hw] at ha
        exact Bool.noConfusion ha
      · exact ih h
    · rw [if_neg ha]
      exact hc

/-- Trimming a character list containing a non-whitespace character
leaves it nonempty. -/
lemma trimCharList_ne_nil {l : List Char} {c : Char}
    (hc : c ∈ l) (hw : c.isWhitespace = false) :
    trimCharList l ≠ [] := by
  unfold trimCharList
  intro h
  rw [List.reverse_eq_nil_iff] at h
  exact dropWhile_ws_ne_nil (List.mem_reverse.mpr (mem_dropWhile_ws hc hw)) hw h

/-- `strTrim` of a string containing a non-whitespace character is not
empty. -/
lemma strTrim_ne_empty {s : String} {c : Char}
    (hc : c ∈ s.toList) (hw : c.isWhitespace = false) :
    strTrim s ≠ "" := by
  unfold strTrim
  intro h
  have hdata : trimCharList s.toList = [] := congrArg String.data h
  exact trimCharList_ne_nil hc hw hdata

/-- Characters of the left part persist in an appended string. -/
lemma mem_toList_append_left {c : Char} (s t : String) (h : c ∈ s.toList) :
    c ∈ (s ++ t).toList := by
  have hst : (s ++ t).toList = s.toList ++ t.toList := by
    simp [String.toList, String.data_append]
  rw [hst]
  exact List.mem_append_left _ h

/-- The generated diff string is exactly the trim of the single synthetic
hunk header — reporting the old and new line counts — followed by the
position-by-position walk of the two line sequences, each walk entry
terminated with a newline (the empty-after-trim fallback can never fire
because the header starts with a non-whitespace character). -/
theorem generateSimpleDiff_matches_walk (oldContent newContent : String) :
    generateSimpleDiff oldContent newContent
      = strTrim (hunkHeader (strSplitLines oldContent).length
            (strSplitLines newContent).length
          ++ strConcat ((claimWalk (strSplitLines oldContent)
            (strSplitLines newContent)).map (fun l => l ++ "\n"))) := by
  simp only [generateSimpleDiff]
  rw [walk_join]
  have hmem : ('@' : Char) ∈ (hunkHeader (strSplitLines oldContent).length
      (strSplitLines newContent).length
      ++ strConcat ((claimWalk (strSplitLines oldContent)
        (strSplitLines newContent)).map (fun l => l ++ "\n"))).toList := by
    apply mem_toList_append_left
    unfold hunkHeader
    apply mem_toList_append_left
    apply mem_toList_append_left
    apply mem_toList_append_left
    apply mem_toList_append_left
    decide
  have hne := strTrim_ne_empty hmem (by decide)
  rw [beq_eq_false_iff_ne.mpr hne]
  simp
